import Mathlib

/-!
Shallow embedding of the milli-mala multi-tenant gateway core
(tenant/endpoint resolution and validation, webhook authentication,
brand-ownership cross-check, case-number selection, HTML-to-block
parsing, and the two request handlers), together with theorems that
settle the specification claims against the code.

External runtime primitives (node:crypto HMAC, `Date.parse`, `Date.now`,
the WHATWG `URL` parser, and the network clients) are passed in as
explicit parameters; every decision taken by the repository's own code
is embedded faithfully.
-/

namespace MilliMala

/-! ### JavaScript-style values

Zendesk custom-field values are `string | number | boolean | null`
(types.ts, `ZendeskCustomField`).  We embed them with JS truthiness and
`String(...)` conversion. -/

inductive JsVal where
  | jnull
  | jbool (b : Bool)
  | jnum (n : Int)
  | jstr (s : String)
  deriving DecidableEq, Repr

/-- JS truthiness of a custom-field value: `null`, `false`, `0` and `""`
are falsy, everything else truthy. -/
def JsVal.truthy : JsVal → Bool
  | .jnull => false
  | .jbool b => b
  | .jnum n => n != 0
  | .jstr s => s != ""

/-- JS `String(v)` for the primitive values above. -/
def JsVal.toJsString : JsVal → String
  | .jnull => "null"
  | .jbool b => if b then "true" else "false"
  | .jnum n => toString n
  | .jstr s => s

/-! ### Data model (types.ts) -/

structure ZendeskConfig where
  subdomain : String
  email : String
  apiToken : String
  webhookSecret : String
  deriving DecidableEq, Repr

/-- Embeds `EndpointConfig` from types.ts.  Optional string credentials use
`""` for the absent (falsy) case, matching the `!ep.appKey`-style checks
in tenant.ts; `caseNumberFieldId?: number | null` is an `Option Int`. -/
structure EndpointConfig where
  type : String
  baseUrl : String
  appKey : String := ""
  username : String := ""
  password : String := ""
  caseNumberFieldId : Option Int := none
  deriving DecidableEq, Repr

structure MalaskraConfig where
  apiKey : String
  deriving DecidableEq, Repr

structure PdfConfig where
  companyName : String
  locale : String
  includeInternalNotes : Bool
  deriving DecidableEq, Repr

/-- Embeds `TenantConfig`; the `endpoints` JS object becomes an association
list in insertion order (keys unique). -/
structure TenantConfig where
  brand_id : String
  name : String
  zendesk : ZendeskConfig
  endpoints : List (String × EndpointConfig)
  malaskra : MalaskraConfig
  pdf : PdfConfig
  deriving DecidableEq, Repr

structure ZendeskCustomField where
  id : Int
  value : JsVal
  deriving DecidableEq, Repr

/-- Embeds `ZendeskTicket`; `brand_id?: number` and
`custom_fields?: ZendeskCustomField[]` are optional. -/
structure ZendeskTicket where
  id : Int
  subject : String
  status : String
  created_at : String := ""
  updated_at : Option String := none
  custom_fields : Option (List ZendeskCustomField) := none
  brand_id : Option Int := none
  deriving DecidableEq, Repr

/-- Embeds `ZendeskComment`; `public` is `Option Bool` because the runtime can
omit the field even though the TS type declares `boolean`. -/
structure ZendeskComment where
  id : Int
  body : Option String := none
  html_body : Option String := none
  plain_body : Option String := none
  public : Option Bool := none
  author_id : Int := 0
  created_at : String := ""
  deriving DecidableEq, Repr

structure ZendeskUser where
  id : Int
  name : String
  email : String
  deriving DecidableEq, Repr

structure DownloadedAttachment where
  filename : String
  contentType : String := ""
  size : Nat := 0
  deriving DecidableEq, Repr

/-! ### Endpoint resolution (tenant.ts, two versions in the repo)

The webhook/attachments handlers' tenant module returns a generic
"unknown endpoint" error on a miss; the legacy copy under src/tenant.ts
appends the list of available endpoint names. -/

/-- Current `resolveEndpoint` (webhook-era tenant module): look up the requested
`doc_endpoint`; on a miss throw `Unknown doc_endpoint "<name>"`. -/
def resolveEndpoint (cfg : TenantConfig) (docEndpoint : String) :
    Except String EndpointConfig :=
  match cfg.endpoints.lookup docEndpoint with
  | some ep => .ok ep
  | none => .error ("Unknown doc_endpoint \"" ++ docEndpoint ++ "\"")

/-- Legacy `resolveEndpoint` (src/tenant.ts): the miss message appends
`". Available: "` followed by the comma-joined endpoint names
(`Object.keys(tenantConfig.endpoints).join(', ')`). -/
def resolveEndpointLegacy (cfg : TenantConfig) (docEndpoint : String) :
    Except String EndpointConfig :=
  match cfg.endpoints.lookup docEndpoint with
  | some ep => .ok ep
  | none =>
      .error ("Unknown doc_endpoint \"" ++ docEndpoint ++ "\". Available: "
        ++ String.intercalate ", " (cfg.endpoints.map Prod.fst))

/-- Prefix test on character lists (the `^pattern` part of a regex). -/
def startsWithChars : List Char → List Char → Bool
  | [], _ => true
  | _ :: _, [] => false
  | p :: ps, c :: cs => p == c && startsWithChars ps cs

/-- Infix scan used for substring tests. -/
def containsChars (needle : List Char) : List Char → Bool
  | [] => startsWithChars needle []
  | c :: rest => startsWithChars needle (c :: rest) || containsChars needle rest

/-- Substring test (JS `String.prototype.includes`). -/
def strContains (haystack needle : String) : Bool :=
  containsChars needle.data haystack.data

/-! ### Replay-window freshness (webhook.ts `isTimestampFresh`)

`Date.parse` is abstracted as `parse : String → Option Int`
(milliseconds since epoch, `none` for `NaN`); `Date.now()` is `now`. -/

/-- Constant `WEBHOOK_TIMESTAMP_TOLERANCE_MS = 5 * 60 * 1000`. -/
def WEBHOOK_TIMESTAMP_TOLERANCE_MS : Int := 5 * 60 * 1000

/-- Function `isTimestampFresh`: the timestamp must parse, and
`Math.abs(Date.now() - ts) <= toleranceMs`. -/
def isTimestampFresh (parse : String → Option Int) (now : Int)
    (timestamp : String) (toleranceMs : Int) : Bool :=
  match parse timestamp with
  | none => false
  | some ts => |now - ts| ≤ toleranceMs

/-! ### Webhook signature verification (webhook.ts)

`createHmac('sha256', secret).update(timestamp + rawBody).digest('base64')`
is abstracted as `hmac secret message`; `timingSafeEqual` on two buffers
is equality of the underlying strings (a length mismatch throws and is
caught, returning `false`, so plain string equality captures it). -/

def verifyWebhookSignature (hmac : String → String → String)
    (rawBody timestamp signature secret : String) : Bool :=
  if timestamp = "" || signature = "" || secret = "" then false
  else signature == hmac secret (timestamp ++ rawBody)

/-! ### Comment filtering and internal-note marking (pdf.ts)

`generateTicketPdf` filters comments by the tenant's
`includeInternalNotes` setting and marks a comment internal exactly when
`comment.public === false`. -/

/-- The comments that are rendered:
`includeInternalNotes ? comments : comments.filter(c => c.public !== false)`. -/
def filteredComments (includeInternalNotes : Bool)
    (comments : List ZendeskComment) : List ZendeskComment :=
  if includeInternalNotes then comments
  else comments.filter (fun c => c.public != some false)

/-- The flag `isInternal = comment.public === false`. -/
def commentIsInternal (c : ZendeskComment) : Bool :=
  c.public == some false

/-- The header suffix appended for internal notes
(`isInternal ? ' (innri athugasemd)' : ''`). -/
def commentHeaderSuffix (c : ZendeskComment) : String :=
  if commentIsInternal c then " (innri athugasemd)" else ""

/-! ### Endpoint baseUrl validation (tenant.ts `validateEndpoint`)

`new URL(...)` is abstracted as `parseUrl : String → Option UrlParts`
(`none` models the constructor throwing); the WHATWG parser reports the
hostname of an IPv6 URL with its brackets, and canonicalizes IPv4
hostnames to dotted decimal. -/

structure UrlParts where
  protocol : String
  hostname : String
  deriving DecidableEq, Repr

/-- The sixteen prefixes the regex `/^172\.(1[6-9]|2\d|3[01])\./`
expands to. -/
def RANGE_172_PREFIXES : List String :=
  ["172.16.", "172.17.", "172.18.", "172.19.", "172.20.", "172.21.",
   "172.22.", "172.23.", "172.24.", "172.25.", "172.26.", "172.27.",
   "172.28.", "172.29.", "172.30.", "172.31."]

def match172 (h : List Char) : Bool :=
  RANGE_172_PREFIXES.any (fun p => startsWithChars p.data h)

/-- Check `PRIVATE_IP_PATTERNS.some(p => p.test(hostname))`, with each anchored
regex translated to the corresponding prefix / whole-string test. -/
def privateHostMatch (h : String) : Bool :=
  startsWithChars "127.".data h.data ||
  startsWithChars "10.".data h.data ||
  match172 h.data ||
  startsWithChars "192.168.".data h.data ||
  startsWithChars "169.254.".data h.data ||
  startsWithChars "0.".data h.data ||
  h == "::1" ||
  startsWithChars "fc00:".data h.data ||
  startsWithChars "fe80:".data h.data ||
  startsWithChars "[".data h.data ||
  h.data.map Char.toLower == "localhost".data

/-- The `try { new URL ... }` block of `validateEndpoint`: parse failure
maps to the `invalid baseUrl` message (the rewrapping catch), while the
HTTPS and private-address errors start with `Endpoint` and are rethrown
as thrown. -/
def endpointUrlCheck (parseUrl : String → Option UrlParts) (name : String)
    (baseUrl : String) : Except String Unit :=
  if baseUrl == "" then .ok ()
  else
    match parseUrl baseUrl with
    | none => .error ("Endpoint \"" ++ name ++ "\": invalid baseUrl \"" ++ baseUrl ++ "\"")
    | some url =>
        if url.protocol != "https:" then
          .error ("Endpoint \"" ++ name ++ "\": baseUrl must use HTTPS (got \""
            ++ url.protocol ++ "\")")
        else if privateHostMatch url.hostname then
          .error ("Endpoint \"" ++ name ++ "\": baseUrl must not point to a private/reserved address")
        else .ok ()

/-- Function `validateEndpoint(name, ep)`: collect missing `type`/`baseUrl`, run
the URL security checks, then the type-specific credential checks, then
report any missing fields. -/
def validateEndpoint (parseUrl : String → Option UrlParts) (name : String)
    (ep : EndpointConfig) : Except String Unit :=
  let missingTB :=
    (if ep.type == "" then ["type"] else []) ++
    (if ep.baseUrl == "" then ["baseUrl"] else [])
  match endpointUrlCheck parseUrl name ep.baseUrl with
  | .error e => .error e
  | .ok _ =>
      let missingCred :=
        if ep.type == "onesystems" then
          (if ep.appKey == "" then ["appKey"] else [])
        else if ep.type == "gopro" then
          (if ep.username == "" then ["username"] else []) ++
          (if ep.password == "" then ["password"] else [])
        else []
      if ep.type != "" && ep.type != "onesystems" && ep.type != "gopro" then
        .error ("Endpoint \"" ++ name ++ "\": unknown type \"" ++ ep.type
          ++ "\". Must be \"onesystems\" or \"gopro\".")
      else
        let missing := missingTB ++ missingCred
        if missing.isEmpty then .ok ()
        else .error ("Endpoint \"" ++ name ++ "\": missing "
          ++ String.intercalate ", " missing)

/-! #### Spec-side notion of a private hostname

For comparing the code against the specification's words, a hostname is
in the private class when it is a canonical dotted-quad IPv4 address in
127/8, 10/8, 172.16/12, 192.168/16, 169.254/16 or 0/8, the literal
`localhost` (case-insensitive), or a bracketed IPv6 literal. -/

def splitDot : List Char → List (List Char)
  | [] => [[]]
  | c :: rest =>
      if c = '.' then [] :: splitDot rest
      else
        match splitDot rest with
        | [] => [[c]]
        | g :: gs => (c :: g) :: gs

def joinDot : List (List Char) → List Char
  | [] => []
  | g :: gs =>
      match gs with
      | [] => g
      | _ :: _ => g ++ '.' :: joinDot gs

def natOfDigits (l : List Char) : Nat :=
  l.foldl (fun acc c => acc * 10 + (c.toNat - 48)) 0

/-- An octet in canonical decimal form (the form the WHATWG URL parser
outputs), between 0 and 255. -/
def canonOctet (l : List Char) : Option Nat :=
  if l == (Nat.repr (natOfDigits l)).data && decide (natOfDigits l ≤ 255) then
    some (natOfDigits l)
  else none

def parseIPv4 (h : String) : Option (Nat × Nat × Nat × Nat) :=
  match splitDot h.data with
  | [p1, p2, p3, p4] =>
      match canonOctet p1, canonOctet p2, canonOctet p3, canonOctet p4 with
      | some a, some b, some c, some d => some (a, b, c, d)
      | _, _, _, _ => none
  | _ => none

def specPrivateQuad (a b : Nat) : Bool :=
  a == 127 || a == 10 || (a == 172 && decide (16 ≤ b) && decide (b ≤ 31)) ||
  (a == 192 && b == 168) || (a == 169 && b == 254) || a == 0

/-- The specification's private/loopback/link-local hostname class. -/
def specPrivateHost (h : String) : Bool :=
  (match parseIPv4 h with
   | some (a, b, _, _) => specPrivateQuad a b
   | none => false) ||
  h.data.map Char.toLower == "localhost".data ||
  startsWithChars "[".data h.data

theorem startsWithChars_append (p t : List Char) : startsWithChars p (p ++ t) = true := by
  induction p with
  | nil => simp [startsWithChars]
  | cons c cs ih => simp [startsWithChars, ih]

theorem splitDot_ne_nil (l : List Char) : splitDot l ≠ [] := by
  cases l with
  | nil => simp [splitDot]
  | cons c rest =>
      simp only [splitDot]
      split
      · simp
      · split <;> simp

theorem joinDot_splitDot (l : List Char) : joinDot (splitDot l) = l := by
  induction l with
  | nil => simp [splitDot, joinDot]
  | cons c rest ih =>
      simp only [splitDot]
      by_cases hc : c = '.'
      · subst hc
        simp only [if_pos rfl]
        obtain ⟨g, gs, hg⟩ : ∃ g gs, splitDot rest = g :: gs := by
          cases h : splitDot rest with
          | nil => exact absurd h (splitDot_ne_nil rest)
          | cons g gs => exact ⟨g, gs, rfl⟩
        rw [hg] at ih ⊢
        simpa [joinDot] using ih
      · simp only [if_neg hc]
        obtain ⟨g, gs, hg⟩ : ∃ g gs, splitDot rest = g :: gs := by
          cases h : splitDot rest with
          | nil => exact absurd h (splitDot_ne_nil rest)
          | cons g gs => exact ⟨g, gs, rfl⟩
        rw [hg] at ih ⊢
        cases gs with
        | nil => simp_all [joinDot]
        | cons g2 gs2 => simp_all [joinDot]

theorem canonOctet_repr {l : List Char} {v : Nat} (h : canonOctet l = some v) :
    l = (Nat.repr v).data ∧ v ≤ 255 := by
  unfold canonOctet at h
  split at h
  · rename_i hcond
    simp only [Bool.and_eq_true, beq_iff_eq, decide_eq_true_eq] at hcond
    cases h
    exact hcond
  · exact absurd h (by simp)

/-- A hostname whose canonical-IPv4 parse succeeds decomposes into its
first two octet strings followed by the rest. -/
theorem parseIPv4_decomp {h : String} {a b c d : Nat}
    (hip : parseIPv4 h = some (a, b, c, d)) :
    ∃ t, h.data = (Nat.repr a).data ++ '.' :: ((Nat.repr b).data ++ '.' :: t) := by
  unfold parseIPv4 at hip
  rcases hsplit : splitDot h.data with _ | ⟨p1, _ | ⟨p2, _ | ⟨p3, _ | ⟨p4, _ | ⟨p5, ps⟩⟩⟩⟩⟩ <;>
    rw [hsplit] at hip <;> try simp at hip
  cases h1 : canonOctet p1 <;> rw [h1] at hip <;> try simp at hip
  cases h2 : canonOctet p2 <;> rw [h2] at hip <;> try simp at hip
  cases h3 : canonOctet p3 <;> rw [h3] at hip <;> try simp at hip
  cases h4 : canonOctet p4 <;> rw [h4] at hip <;> try simp at hip
  obtain ⟨rfl, rfl, rfl, rfl⟩ := hip
  have hjoin := joinDot_splitDot h.data
  rw [hsplit] at hjoin
  simp only [joinDot] at hjoin
  obtain ⟨hp1, -⟩ := canonOctet_repr h1
  obtain ⟨hp2, -⟩ := canonOctet_repr h2
  subst hp1; subst hp2
  exact ⟨p3 ++ '.' :: p4, hjoin.symm⟩

/-- Soundness of the code's syntactic patterns for the specification's
private classes: every spec-private hostname is caught by
`PRIVATE_IP_PATTERNS`. -/
theorem specPrivate_implies_pattern {h : String}
    (hp : specPrivateHost h = true) : privateHostMatch h = true := by
  unfold specPrivateHost at hp
  simp only [Bool.or_eq_true] at hp
  rcases hp with (hquad | hlocal) | hbracket
  · cases hip : parseIPv4 h with
    | none => rw [hip] at hquad; simp at hquad
    | some q =>
        obtain ⟨a, b, c, d⟩ := q
        rw [hip] at hquad
        simp only at hquad
        obtain ⟨t, hd⟩ := parseIPv4_decomp hip
        unfold specPrivateQuad at hquad
        simp only [Bool.or_eq_true, Bool.and_eq_true, beq_iff_eq,
          decide_eq_true_eq] at hquad
        unfold privateHostMatch
        simp only [Bool.or_eq_true]
        rcases hquad with ((((ha | ha) | ⟨⟨ha, hb1⟩, hb2⟩) | ⟨ha, hb⟩) | ⟨ha, hb⟩) | ha
        · subst ha
          have hx : startsWithChars "127.".data h.data = true := by
            rw [hd]; exact startsWithChars_append "127.".data _
          simp [hx]
        · subst ha
          have hx : startsWithChars "10.".data h.data = true := by
            rw [hd]; exact startsWithChars_append "10.".data _
          simp [hx]
        · subst ha
          have hx : match172 h.data = true := by
            simp only [match172, List.any_eq_true]
            interval_cases b
            · exact ⟨"172.16.", by decide, by rw [hd]; exact startsWithChars_append "172.16.".data _⟩
            · exact ⟨"172.17.", by decide, by rw [hd]; exact startsWithChars_append "172.17.".data _⟩
            · exact ⟨"172.18.", by decide, by rw [hd]; exact startsWithChars_append "172.18.".data _⟩
            · exact ⟨"172.19.", by decide, by rw [hd]; exact startsWithChars_append "172.19.".data _⟩
            · exact ⟨"172.20.", by decide, by rw [hd]; exact startsWithChars_append "172.20.".data _⟩
            · exact ⟨"172.21.", by decide, by rw [hd]; exact startsWithChars_append "172.21.".data _⟩
            · exact ⟨"172.22.", by decide, by rw [hd]; exact startsWithChars_append "172.22.".data _⟩
            · exact ⟨"172.23.", by decide, by rw [hd]; exact startsWithChars_append "172.23.".data _⟩
            · exact ⟨"172.24.", by decide, by rw [hd]; exact startsWithChars_append "172.24.".data _⟩
            · exact ⟨"172.25.", by decide, by rw [hd]; exact startsWithChars_append "172.25.".data _⟩
            · exact ⟨"172.26.", by decide, by rw [hd]; exact startsWithChars_append "172.26.".data _⟩
            · exact ⟨"172.27.", by decide, by rw [hd]; exact startsWithChars_append "172.27.".data _⟩
            · exact ⟨"172.28.", by decide, by rw [hd]; exact startsWithChars_append "172.28.".data _⟩
            · exact ⟨"172.29.", by decide, by rw [hd]; exact startsWithChars_append "172.29.".data _⟩
            · exact ⟨"172.30.", by decide, by rw [hd]; exact startsWithChars_append "172.30.".data _⟩
            · exact ⟨"172.31.", by decide, by rw [hd]; exact startsWithChars_append "172.31.".data _⟩
          simp [hx]
        · subst ha; subst hb
          have hx : startsWithChars "192.168.".data h.data = true := by
            rw [hd]; exact startsWithChars_append "192.168.".data _
          simp [hx]
        · subst ha; subst hb
          have hx : startsWithChars "169.254.".data h.data = true := by
            rw [hd]; exact startsWithChars_append "169.254.".data _
          simp [hx]
        · subst ha
          have hx : startsWithChars "0.".data h.data = true := by
            rw [hd]; exact startsWithChars_append "0.".data _
          simp [hx]
  · unfold privateHostMatch
    simp [hlocal]
  · unfold privateHostMatch
    simp [hbracket]

/-! ### Case-number selection (webhook.ts lines 136–141) -/

/-- Truthiness of `ep.caseNumberFieldId` (`number | null | undefined`). -/
def caseFieldDeclared (o : Option Int) : Bool :=
  match o with
  | some n => n != 0
  | none => false

/-- The case number used for the archive upload: if the endpoint declares
a custom-field id and the ticket has `custom_fields`, look the field up;
a truthy value is used via `String(field.value)`; otherwise the fallback
is `` `ZD-${ticket_id}` ``. -/
def selectCaseNumber (ep : EndpointConfig) (ticket : ZendeskTicket)
    (ticket_id : Int) : String :=
  let fromField : Option String :=
    if caseFieldDeclared ep.caseNumberFieldId then
      match ticket.custom_fields with
      | some fields =>
          match fields.find? (fun f => some f.id == ep.caseNumberFieldId) with
          | some f => if f.value.truthy then some f.value.toJsString else none
          | none => none
      | none => none
    else none
  match fromField with
  | some cn => cn
  | none => "ZD-" ++ toString ticket_id

/-! ### HTML → block parser (pdf.ts `parseHtmlToBlocks`)

The scan-based parser is embedded over `List Char`.  Loop-shaped
helpers take an explicit fuel argument; every call site passes
`input.length + 1`, and each iteration consumes at least one character,
so the fuel is never exhausted and the functions compute exactly what
the source's `while` loops compute. -/

/-- Apostrophe character (code point 39). -/
def apos : Char := Char.ofNat 39

/-- JS `\s` for the characters that can occur here (ASCII whitespace,
NBSP, BOM). -/
def jsSpace (c : Char) : Bool :=
  c == ' ' || c == '\t' || c == '\n' || c == '\r' || c == '\x0b' ||
  c == '\x0c' || c == ' ' || c == '﻿'

/-- JS `String.prototype.trim`. -/
def trimChars (l : List Char) : List Char :=
  ((l.dropWhile jsSpace).reverse.dropWhile jsSpace).reverse

structure PdfRun where
  text : String
  bold : Bool
  italic : Bool
  deriving DecidableEq, Repr

/-- A block; `type` is one of `"paragraph"`, `"heading"`, `"list-item"`
as in the TS union. -/
structure PdfBlock where
  type : String
  runs : List PdfRun
  indent : Nat
  deriving DecidableEq, Repr

structure ListCtx where
  type : String
  index : Nat
  deriving DecidableEq, Repr

/-- Parser state; `listStack` holds the innermost list first (the JS
array's end). -/
structure HtmlParseState where
  blocks : List PdfBlock
  currentBlock : Option PdfBlock
  bold : Bool
  italic : Bool
  listStack : List ListCtx
  blockquoteDepth : Nat
  linkHref : Option (List Char)
  deriving DecidableEq, Repr

def initParseState : HtmlParseState :=
  ⟨[], none, false, false, [], 0, none⟩

/-- Function `ensureBlock()`: open a paragraph block at the current indentation
`listStack.length * 15 + blockquoteDepth * 20` if none is open. -/
def ensureBlock (st : HtmlParseState) : HtmlParseState :=
  match st.currentBlock with
  | some _ => st
  | none =>
      { st with currentBlock := (some
          ⟨"paragraph", [], st.listStack.length * 15 + st.blockquoteDepth * 20⟩) }

/-- Function `addText(text)`: append a run carrying the active bold/italic flags
(no-op on empty text). -/
def addText (st : HtmlParseState) (text : List Char) : HtmlParseState :=
  if text.isEmpty then st
  else
    let st := ensureBlock st
    match st.currentBlock with
    | some b =>
        { st with currentBlock := (some
            { b with runs := b.runs ++ [⟨String.mk text, st.bold, st.italic⟩] }) }
    | none => st

/-- Function `flushBlock()`: emit the current block if it has runs. -/
def flushBlock (st : HtmlParseState) : HtmlParseState :=
  match st.currentBlock with
  | some b =>
      if b.runs.isEmpty then { st with currentBlock := none }
      else { st with blocks := st.blocks ++ [b], currentBlock := none }
  | none => st

/-- Characters of the tag up to the first `>`, plus the remainder
(`indexOf('>')`); `none` when no `>` exists. -/
def splitTag : List Char → Option (List Char × List Char)
  | [] => none
  | '>' :: rest => some ([], rest)
  | c :: rest =>
      match splitTag rest with
      | none => none
      | some (tag, rem) => some (c :: tag, rem)

/-- Text up to (excluding) the next `<`, plus the remainder. -/
def takeUntilLt : List Char → List Char × List Char
  | [] => ([], [])
  | '<' :: rest => ([], '<' :: rest)
  | c :: rest =>
      let (t, r) := takeUntilLt rest
      (c :: t, r)

/-- Try to match `href\s*=\s*["']([^"']*)["']` at the head of the list
(the regex is case-insensitive on `href`). -/
def hrefAt : List Char → Option (List Char)
  | c1 :: c2 :: c3 :: c4 :: rest =>
      if c1.toLower == 'h' && c2.toLower == 'r' && c3.toLower == 'e' &&
          c4.toLower == 'f' then
        match rest.dropWhile jsSpace with
        | '=' :: r2 =>
            match r2.dropWhile jsSpace with
            | q :: r4 =>
                if q == '"' || q == apos then
                  let capture := r4.takeWhile (fun c => !(c == '"' || c == apos))
                  match r4.drop capture.length with
                  | _ :: _ => some capture
                  | [] => none
                else none
            | [] => none
        | _ => none
      else none
  | _ => none

/-- First position where the href pattern matches (regex search). -/
def findHref : List Char → Option (List Char)
  | [] => none
  | c :: rest =>
      match hrefAt (c :: rest) with
      | some cap => some cap
      | none => findHref rest

def isHeadingTag (t : String) : Bool :=
  ["h1", "h2", "h3", "h4", "h5", "h6"].contains t

/-- Whether `fullTag.startsWith('/')` after trimming. -/
def htmlTagClosing (rawTag : List Char) : Bool :=
  startsWithChars ['/'] (trimChars rawTag)

/-- Computes `tagStr.replace(/\/$/, '').split(/[\s/])[0].toLowerCase()`: the
characters up to the first whitespace or slash, lowercased. -/
def htmlTagName (rawTag : List Char) : String :=
  let fullTag := trimChars rawTag
  let tagStr := if htmlTagClosing rawTag then fullTag.drop 1 else fullTag
  String.mk ((tagStr.takeWhile (fun c => !(jsSpace c || c == '/'))).map Char.toLower)

/-- Dispatch on one tag (the characters between `<` and `>`), exactly
following the source's if/else chain. -/
def handleTag (st : HtmlParseState) (rawTag : List Char) : HtmlParseState :=
  let fullTag := trimChars rawTag
  let isClosing := htmlTagClosing rawTag
  let tagName := htmlTagName rawTag
  if tagName == "p" || tagName == "div" then flushBlock st
  else if tagName == "br" then flushBlock st
  else if isHeadingTag tagName then
    if !isClosing then
      let st := flushBlock st
      let st := ensureBlock st
      let st :=
        match st.currentBlock with
        | some b => { st with currentBlock := some { b with type := "heading" } }
        | none => st
      { st with bold := true }
    else flushBlock { st with bold := false }
  else if tagName == "blockquote" then
    let st := flushBlock st
    if !isClosing then { st with blockquoteDepth := st.blockquoteDepth + 1 }
    else { st with blockquoteDepth := st.blockquoteDepth - 1 }
  else if tagName == "ul" || tagName == "ol" then
    let st := flushBlock st
    if !isClosing then { st with listStack := ⟨tagName, 0⟩ :: st.listStack }
    else { st with listStack := st.listStack.tail }
  else if tagName == "li" then
    if !isClosing then
      let st := flushBlock st
      let st := ensureBlock st
      match st.listStack with
      | list :: stackRest =>
          let newIndex := list.index + 1
          let prefixText : String :=
            if list.type == "ol" then toString newIndex ++ ". " else "• "
          (match st.currentBlock with
           | some b =>
               { st with
                 currentBlock := (some { b with
                   type := "list-item"
                   indent := st.listStack.length * 15
                   runs := b.runs ++ [⟨prefixText, false, false⟩] })
                 listStack := { list with index := newIndex } :: stackRest }
           | none => st)
      | [] =>
          (match st.currentBlock with
           | some b =>
               { st with currentBlock := (some { b with
                   type := "list-item"
                   indent := st.listStack.length * 15 }) }
           | none => st)
    else flushBlock st
  else if tagName == "strong" || tagName == "b" then { st with bold := !isClosing }
  else if tagName == "em" || tagName == "i" then { st with italic := !isClosing }
  else if tagName == "a" then
    if !isClosing then { st with linkHref := findHref fullTag }
    else
      match st.linkHref with
      | some href => { addText st (" (".data ++ href ++ ")".data) with linkHref := none }
      | none => st
  else if tagName == "td" || tagName == "th" then
    if isClosing then addText st "  ".data else st
  else if tagName == "tr" then
    if isClosing then flushBlock st else st
  else st

/-- The main scan (`while (pos < cleaned.length)`). -/
def parseLoop : Nat → HtmlParseState → List Char → HtmlParseState
  | 0, st, _ => st
  | _ + 1, st, [] => st
  | fuel + 1, st, '<' :: rest =>
      match splitTag rest with
      | none => addText st ('<' :: rest)
      | some (tag, rem) => parseLoop fuel (handleTag st tag) rem
  | fuel + 1, st, c :: rest =>
      let (t, r) := takeUntilLt rest
      parseLoop fuel (addText st (c :: t)) r

/-- Case-insensitive prefix check (the pattern is lowercase). -/
def ciPrefix : List Char → List Char → Bool
  | [], _ => true
  | _ :: _, [] => false
  | p :: ps, c :: cs => p == c.toLower && ciPrefix ps cs

/-- Drop everything up to and including the first (case-insensitive)
occurrence of `pat`. -/
def dropThroughCi (pat : List Char) : List Char → Option (List Char)
  | [] => none
  | c :: rest =>
      if ciPrefix pat (c :: rest) then some ((c :: rest).drop pat.length)
      else dropThroughCi pat rest

/-- Models `html.replace(/<tag[\s\S]*?<\/tag>/gi, '')`: remove every
non-overlapping lazy match. -/
def stripTagged (openTag closeTag : List Char) : Nat → List Char → List Char
  | 0, l => l
  | _ + 1, [] => []
  | fuel + 1, c :: rest =>
      if ciPrefix openTag (c :: rest) then
        match dropThroughCi closeTag ((c :: rest).drop openTag.length) with
        | some rem => stripTagged openTag closeTag fuel rem
        | none => c :: stripTagged openTag closeTag fuel rest
      else c :: stripTagged openTag closeTag fuel rest

def stripScriptsStyles (l : List Char) : List Char :=
  let afterScript := stripTagged "<script".data "</script>".data (l.length + 1) l
  stripTagged "<style".data "</style>".data (afterScript.length + 1) afterScript

/-- Literal global replace, non-overlapping, left to right. -/
def replaceAllSub (pat rep : List Char) : Nat → List Char → List Char
  | 0, l => l
  | _ + 1, [] => []
  | fuel + 1, c :: rest =>
      if startsWithChars pat (c :: rest) && !pat.isEmpty then
        rep ++ replaceAllSub pat rep fuel ((c :: rest).drop pat.length)
      else c :: replaceAllSub pat rep fuel rest

def replaceEnt (pat rep : String) (l : List Char) : List Char :=
  replaceAllSub pat.data rep.data (l.length + 1) l

/-- Class `[#\w]` from the catch-all entity regex. -/
def isEntityChar (c : Char) : Bool :=
  c == '#' || c.isAlpha || c.isDigit || c == '_'

/-- Models `.replace(/&[#\w]+;/g, ' ')`. -/
def collapseGenericEntities : Nat → List Char → List Char
  | 0, l => l
  | _ + 1, [] => []
  | fuel + 1, c :: rest =>
      if c == '&' then
        let run := rest.takeWhile isEntityChar
        if !run.isEmpty && (rest.drop run.length).head? == some ';' then
          ' ' :: collapseGenericEntities fuel (rest.drop (run.length + 1))
        else c :: collapseGenericEntities fuel rest
      else c :: collapseGenericEntities fuel rest

/-- Models `.replace(/\s+/g, ' ')`. -/
def collapseWhitespace : Nat → List Char → List Char
  | 0, l => l
  | _ + 1, [] => []
  | fuel + 1, c :: rest =>
      if jsSpace c then ' ' :: collapseWhitespace fuel (rest.dropWhile jsSpace)
      else c :: collapseWhitespace fuel rest

/-- Function `decodeEntities` (pdf.ts): the fixed table in source order, then the
catch-all entity collapse. -/
def decodeEntities (l : List Char) : List Char :=
  let l := replaceEnt "&nbsp;" " " l
  let l := replaceEnt "&amp;" "&" l
  let l := replaceEnt "&lt;" "<" l
  let l := replaceEnt "&gt;" ">" l
  let l := replaceEnt "&quot;" "\"" l
  let l := replaceEnt "&#39;" (String.mk [apos]) l
  let l := replaceEnt "&#x27;" (String.mk [apos]) l
  let l := replaceEnt "&#x2F;" "/" l
  collapseGenericEntities (l.length + 1) l

/-- Per-run post-processing:
`run.text = decodeEntities(run.text).replace(/\s+/g, ' ')`. -/
def postRun (r : PdfRun) : PdfRun :=
  let decoded := decodeEntities r.text.data
  { r with text := String.mk (collapseWhitespace (decoded.length + 1) decoded) }

def postBlock (b : PdfBlock) : PdfBlock :=
  { b with runs := b.runs.map postRun }

/-- Function `parseHtmlToBlocks(html)`: strip script/style elements, scan, flush,
then decode entities and collapse whitespace in every run. -/
def parseHtmlToBlocks (html : String) : List PdfBlock :=
  if html == "" then []
  else
    let cleaned := stripScriptsStyles html.data
    let st := parseLoop (cleaned.length + 1) initParseState cleaned
    let st := flushBlock st
    st.blocks.map postBlock

/-! ### Request handlers (webhook.ts `handleWebhook`,
attachments.ts `handleAttachments`)

The Zendesk client, the document client and the PDF generator are
external collaborators supplied through an environment record; each
handler returns its `{ status, body }` result together with the list of
`uploadDocument` calls it performed.  Author-name resolution is
best-effort in the source (failures are swallowed) and affects only the
rendered PDF contents, which the embedding abstracts as an opaque
byte count. -/

structure UploadError where
  filename : String
  error : String
  deriving DecidableEq, Repr

structure UploadCall where
  caseNumber : String
  filename : String
  deriving DecidableEq, Repr

/-- Response JSON bodies; a field a return site does not set is `none`
(the `duration_ms` timing field is omitted). -/
structure RespBody where
  error : Option String := none
  success : Option Bool := none
  ticket_id : Option Int := none
  brand_id : Option String := none
  case_number : Option String := none
  doc_endpoint : Option String := none
  doc_system : Option String := none
  attachments_total : Option Nat := none
  attachments_forwarded : Option Nat := none
  errors : Option (List UploadError) := none
  deriving DecidableEq, Repr

structure HandlerResult where
  status : Nat
  body : RespBody
  deriving DecidableEq, Repr

def hr (status : Nat) (body : RespBody) : HandlerResult := ⟨status, body⟩

/-- Reads `headers[name]`, with `""` for a missing header (both are falsy). -/
def headerGet (headers : List (String × String)) (k : String) : String :=
  (headers.lookup k).getD ""

/-- Function `verifyApiKey` (attachments.ts): a missing tenant key or header
fails; otherwise the hash-then-`timingSafeEqual` comparison accepts
exactly when the two key strings are equal. -/
def verifyApiKey (headers : List (String × String)) (cfg : TenantConfig) : Bool :=
  if cfg.malaskra.apiKey == "" then false
  else
    let provided := headerGet headers "x-api-key"
    if provided == "" then false
    else provided == cfg.malaskra.apiKey

/-- The attachment upload loop: each upload is attempted in order
(`outcome i` is the result of the `i`-th `uploadDocument` call);
successes are counted, failures are collected as
`{ filename, error }` entries.  Returns
(forwarded, errors, calls made). -/
def runUploads (outcome : Nat → Except String Unit) (caseNumber : String) :
    List DownloadedAttachment → Nat → Nat × List UploadError × List UploadCall
  | [], _ => (0, [], [])
  | att :: rest, i =>
      let (f, es, calls) := runUploads outcome caseNumber rest (i + 1)
      match outcome i with
      | .ok _ => (f + 1, es, ⟨caseNumber, att.filename⟩ :: calls)
      | .error msg => (f, ⟨att.filename, msg⟩ :: es, ⟨caseNumber, att.filename⟩ :: calls)

structure AttachmentsEnv where
  getTicket : Int → Except String ZendeskTicket
  getTicketComments : Int → Except String (List ZendeskComment)
  fetchAttachments : List ZendeskComment → Except String (List DownloadedAttachment)
  uploadResult : Nat → Except String Unit

/-- Inbound body of `POST /v1/attachments`; `ticket_id` is `none` when
missing or not an integer. -/
structure AttachmentsReqBody where
  ticket_id : Option Int := none
  case_number : Option String := none
  deriving DecidableEq, Repr

/-- Handler `handleAttachments`: API-key check, input validation, endpoint
resolution, ticket fetch, brand comparison, attachment fetch, upload
loop, structured response.  Thrown collaborator errors surface as the
generic 500. -/
def handleAttachments (env : AttachmentsEnv) (headers : List (String × String))
    (body : AttachmentsReqBody) (tenantConfig : TenantConfig)
    (docEndpoint : String) : HandlerResult × List UploadCall :=
  let brandId := tenantConfig.brand_id
  if !verifyApiKey headers tenantConfig then
    (hr 401 { error := some "Invalid or missing API key" }, [])
  else
    match body.ticket_id with
    | none => (hr 400 { error := some "Invalid or missing ticket_id" }, [])
    | some ticketId =>
        if ticketId ≤ 0 then
          (hr 400 { error := some "Invalid or missing ticket_id" }, [])
        else
          match body.case_number with
          | none => (hr 400 { error := some "Invalid or missing case_number" }, [])
          | some caseNumber =>
              if caseNumber == "" then
                (hr 400 { error := some "Invalid or missing case_number" }, [])
              else
                match resolveEndpoint tenantConfig docEndpoint with
                | .error msg => (hr 400 { error := some msg }, [])
                | .ok ep =>
                    match env.getTicket ticketId with
                    | .error _ => (hr 500 { error := some "Internal server error" }, [])
                    | .ok ticket =>
                        if (match ticket.brand_id with
                            | some b => toString b != brandId
                            | none => false) then
                          (hr 403 { error := some "Ticket does not belong to this brand" }, [])
                        else
                          match env.getTicketComments ticketId with
                          | .error _ => (hr 500 { error := some "Internal server error" }, [])
                          | .ok comments =>
                              match env.fetchAttachments comments with
                              | .error _ => (hr 500 { error := some "Internal server error" }, [])
                              | .ok attachments =>
                                  if attachments.isEmpty then
                                    (hr 200 { success := some true
                                              ticket_id := some ticketId
                                              brand_id := some brandId
                                              case_number := some caseNumber
                                              attachments_forwarded := some 0 }, [])
                                  else
                                    let r := runUploads env.uploadResult caseNumber attachments 0
                                    (hr 200 { success := some r.2.1.isEmpty
                                              ticket_id := some ticketId
                                              brand_id := some brandId
                                              case_number := some caseNumber
                                              doc_endpoint := some docEndpoint
                                              doc_system := some ep.type
                                              attachments_total := some attachments.length
                                              attachments_forwarded := some r.1
                                              errors := (if r.2.1.isEmpty then none else some r.2.1) },
                                     r.2.2)

structure WebhookEnv where
  hmac : String → String → String
  parseDate : String → Option Int
  now : Int
  getTicket : Int → Except String ZendeskTicket
  getTicketComments : Int → Except String (List ZendeskComment)
  fetchAttachments : List ZendeskComment → Except String (List DownloadedAttachment)
  renderPdf : ZendeskTicket → List ZendeskComment → Nat
  uploadResult : Except String Unit

structure WebhookReqBody where
  ticket_id : Option Int := none
  deriving DecidableEq, Repr

/-- Handler `handleWebhook`: signature check, replay-window check, input
validation, endpoint resolution, ticket fetch, fail-closed brand
cross-check, comment/attachment fetch, PDF render, case-number
selection, one `uploadDocument` call, success response. -/
def handleWebhook (env : WebhookEnv) (rawBody : String)
    (headers : List (String × String)) (body : WebhookReqBody)
    (tenantConfig : TenantConfig) (docEndpoint : String) :
    HandlerResult × List UploadCall :=
  let brandId := tenantConfig.brand_id
  let signature := headerGet headers "x-zendesk-webhook-signature"
  let timestamp := headerGet headers "x-zendesk-webhook-signature-timestamp"
  if !verifyWebhookSignature env.hmac rawBody timestamp signature
      tenantConfig.zendesk.webhookSecret then
    (hr 401 { error := some "Invalid webhook signature" }, [])
  else if !isTimestampFresh env.parseDate env.now timestamp
      WEBHOOK_TIMESTAMP_TOLERANCE_MS then
    (hr 401 { error := some "Webhook timestamp expired" }, [])
  else
    match body.ticket_id with
    | none => (hr 400 { error := some "Invalid or missing ticket_id" }, [])
    | some ticket_id =>
        if ticket_id ≤ 0 then
          (hr 400 { error := some "Invalid or missing ticket_id" }, [])
        else
          match resolveEndpoint tenantConfig docEndpoint with
          | .error msg => (hr 400 { error := some msg }, [])
          | .ok ep =>
              match env.getTicket ticket_id with
              | .error _ => (hr 500 { error := some "Internal server error" }, [])
              | .ok ticket =>
                  match ticket.brand_id with
                  | none => (hr 403 { error := some "Ticket brand_id unavailable" }, [])
                  | some tb =>
                      if toString tb != brandId then
                        (hr 403 { error := some "Ticket does not belong to this brand" }, [])
                      else
                        match env.getTicketComments ticket_id with
                        | .error _ => (hr 500 { error := some "Internal server error" }, [])
                        | .ok comments =>
                            match env.fetchAttachments comments with
                            | .error _ => (hr 500 { error := some "Internal server error" }, [])
                            | .ok _attachments =>
                                let _pdfSize := env.renderPdf ticket comments
                                let caseNumber := selectCaseNumber ep ticket ticket_id
                                let uploadFilename := "ticket-" ++ toString ticket_id ++ ".pdf"
                                let calls := [(⟨caseNumber, uploadFilename⟩ : UploadCall)]
                                match env.uploadResult with
                                | .error _ => (hr 500 { error := some "Internal server error" }, calls)
                                | .ok _ =>
                                    (hr 200 { success := some true
                                              ticket_id := some ticket_id
                                              brand_id := some brandId
                                              case_number := some caseNumber
                                              doc_endpoint := some docEndpoint
                                              doc_system := some ep.type }, calls)

deriving instance DecidableEq for Except

/-! ### Concrete fixtures (mirroring the repository's test fixtures) -/

def testTenant : TenantConfig :=
  { brand_id := "360001234567"
    name := "Test Tenant"
    zendesk := ⟨"test", "test@example.com", "test-token", "test-webhook-secret"⟩
    endpoints := [("onesystems",
      { type := "onesystems", baseUrl := "https://api.onesystems.test", appKey := "test-key" })]
    malaskra := ⟨"test-malaskra-key"⟩
    pdf := ⟨"Test Company", "is-IS", false⟩ }

def testTenantTwoEndpoints : TenantConfig :=
  { testTenant with endpoints :=
      [("onesystems", { type := "onesystems", baseUrl := "https://a.test", appKey := "k" }),
       ("gopro", { type := "gopro", baseUrl := "https://b.test", username := "u", password := "p" })] }

/-- Environment for the attachments flow in which the fetched ticket has
no `brand_id`, one attachment exists, and every upload succeeds. -/
def envMissingBrand : AttachmentsEnv :=
  { getTicket := fun _ => .ok { id := 123, subject := "Test", status := "open" }
    getTicketComments := fun _ => .ok [{ id := 1, body := some "See attached", public := some true }]
    fetchAttachments := fun _ => .ok
      [{ filename := "report.pdf", contentType := "application/pdf", size := 1024 }]
    uploadResult := fun _ => .ok () }

/-! ### Claim theorems -/

/-- C1: the brand-ownership cross-check is NOT fail-closed on the
on-demand attachments flow.  With a fetched ticket whose `brand_id` is
absent, `handleAttachments` does not return 403: it proceeds, performs
the upload, and answers 200/success — although the webhook flow, the
spec, and the repository's own test
(`should reject ticket with undefined brand_id (fail-closed)`,
attachments.test.ts) all require a 403 `Ticket brand_id unavailable`
with no side-effecting work. -/
theorem attachments_missing_brand_not_fail_closed :
    (handleAttachments envMissingBrand [("x-api-key", "test-malaskra-key")]
        { ticket_id := some 123, case_number := some "C-100" }
        testTenant "onesystems").1.status = 200 ∧
    (handleAttachments envMissingBrand [("x-api-key", "test-malaskra-key")]
        { ticket_id := some 123, case_number := some "C-100" }
        testTenant "onesystems").1.body.success = some true ∧
    (handleAttachments envMissingBrand [("x-api-key", "test-malaskra-key")]
        { ticket_id := some 123, case_number := some "C-100" }
        testTenant "onesystems").2 = [⟨"C-100", "report.pdf"⟩] := by
  decide

/-- C3: replay-window freshness is symmetric: `isTimestampFresh` holds
exactly when the timestamp parses and lies within ±5 minutes of now; a
timestamp 2 minutes in the past passes, 10 minutes in the past or the
future fails, and an unparseable (or empty) timestamp fails. -/
theorem timestamp_freshness_symmetric (parse : String → Option Int)
    (now : Int) (t : String) :
    (isTimestampFresh parse now t WEBHOOK_TIMESTAMP_TOLERANCE_MS = true ↔
      ∃ ts, parse t = some ts ∧ |now - ts| ≤ 5 * 60 * 1000) ∧
    (parse t = none →
      isTimestampFresh parse now t WEBHOOK_TIMESTAMP_TOLERANCE_MS = false) ∧
    (parse t = some (now - 2 * 60 * 1000) →
      isTimestampFresh parse now t WEBHOOK_TIMESTAMP_TOLERANCE_MS = true) ∧
    (parse t = some (now - 10 * 60 * 1000) →
      isTimestampFresh parse now t WEBHOOK_TIMESTAMP_TOLERANCE_MS = false) ∧
    (parse t = some (now + 10 * 60 * 1000) →
      isTimestampFresh parse now t WEBHOOK_TIMESTAMP_TOLERANCE_MS = false) := by
  unfold isTimestampFresh WEBHOOK_TIMESTAMP_TOLERANCE_MS
  refine ⟨?_, ?_, ?_, ?_, ?_⟩
  · cases hp : parse t with
    | none => simp
    | some ts =>
        simp only [hp, Option.some.injEq, decide_eq_true_eq]
        constructor
        · intro hle
          exact ⟨ts, rfl, by simpa using hle⟩
        · rintro ⟨ts', hts', hle⟩
          cases hts'
          simpa using hle
  · intro hp; simp [hp]
  · intro hp
    simp only [hp, decide_eq_true_eq]
    have : now - (now - 2 * 60 * 1000) = 2 * 60 * 1000 := by ring
    rw [this]
    decide
  · intro hp
    simp only [hp, decide_eq_false_iff_not]
    have : now - (now - 10 * 60 * 1000) = 10 * 60 * 1000 := by ring
    rw [this]
    decide
  · intro hp
    simp only [hp, decide_eq_false_iff_not]
    have : now - (now + 10 * 60 * 1000) = -(10 * 60 * 1000) := by ring
    rw [this]
    decide

/-- Witness for C3 at a concrete parse function and instant. -/
theorem timestamp_freshness_symmetric_witness :
    isTimestampFresh (fun _ => some ((0 : Int) - 2 * 60 * 1000)) 0
      "2026-10-11T12:00:00Z" WEBHOOK_TIMESTAMP_TOLERANCE_MS = true :=
  (timestamp_freshness_symmetric (fun _ => some ((0 : Int) - 2 * 60 * 1000)) 0
    "2026-10-11T12:00:00Z").2.2.1 rfl

/-- C4 counterexample: the legacy `resolveEndpoint` in src/tenant.ts
enumerates the tenant's endpoint names in its miss message, so the
message is not free of the configured endpoint names and differs
between configurations. -/
theorem resolveEndpoint_legacy_leaks_names :
    resolveEndpointLegacy testTenantTwoEndpoints "bad" =
      .error "Unknown doc_endpoint \"bad\". Available: onesystems, gopro" ∧
    strContains "Unknown doc_endpoint \"bad\". Available: onesystems, gopro"
      "onesystems" = true ∧
    strContains "Unknown doc_endpoint \"bad\". Available: onesystems, gopro"
      "gopro" = true ∧
    resolveEndpointLegacy testTenantTwoEndpoints "bad" ≠
      resolveEndpointLegacy testTenant "bad" := by
  decide

/-- C4 (amended): the current `resolveEndpoint` used by both handlers
answers every miss with the single generic message
`Unknown doc_endpoint "<requested>"`, identical for any two tenant
configurations whatever their endpoint names; the legacy copy in
src/tenant.ts instead appends the endpoint-name list (see the
counterexample). -/
theorem resolveEndpoint_miss_message_config_independent
    (cfg₁ cfg₂ : TenantConfig) (name : String)
    (h₁ : cfg₁.endpoints.lookup name = none)
    (h₂ : cfg₂.endpoints.lookup name = none) :
    resolveEndpoint cfg₁ name = resolveEndpoint cfg₂ name ∧
    resolveEndpoint cfg₁ name =
      .error ("Unknown doc_endpoint \"" ++ name ++ "\"") := by
  unfold resolveEndpoint
  rw [h₁, h₂]
  exact ⟨rfl, rfl⟩

/-- Witness for C4 at two concrete configurations with different
endpoint-name sets. -/
theorem resolveEndpoint_miss_message_config_independent_witness :
    resolveEndpoint testTenant "bad" = resolveEndpoint testTenantTwoEndpoints "bad" ∧
    resolveEndpoint testTenant "bad" =
      .error ("Unknown doc_endpoint \"" ++ "bad" ++ "\"") :=
  resolveEndpoint_miss_message_config_independent testTenant testTenantTwoEndpoints
    "bad" (by decide) (by decide)

/-- A parse table standing in for `new URL(...)` on the base URLs used
in the concrete instances (protocol and hostname as the WHATWG parser
reports them). -/
def demoParseUrl : String → Option UrlParts := fun s =>
  if s == "https://10.example.com/api" then some ⟨"https:", "10.example.com"⟩
  else if s == "https://api.onesystems.is" then some ⟨"https:", "api.onesystems.is"⟩
  else if s == "http://api.onesystems.test" then some ⟨"http:", "api.onesystems.test"⟩
  else if s == "https://127.0.0.1/api" then some ⟨"https:", "127.0.0.1"⟩
  else none

/-- C5 counterexample: `https://10.example.com/api` is a well-formed
public HTTPS URL — its hostname is a DNS name, not an address in any
private/loopback/link-local class — yet `validateEndpoint` rejects it
with the private/insecure error, because the code matches the regex
`/^10\./` against the hostname string. -/
theorem public_host_with_private_prefix_rejected :
    validateEndpoint demoParseUrl "onesystems"
        { type := "onesystems", baseUrl := "https://10.example.com/api", appKey := "k" } =
      .error "Endpoint \"onesystems\": baseUrl must not point to a private/reserved address" ∧
    specPrivateHost "10.example.com" = false := by
  decide

/-- C5 (amended): `validateEndpoint` rejects every endpoint whose
baseUrl parses with a non-HTTPS protocol, and every endpoint whose
hostname lies in the specification's private classes (canonical
dotted-quad IPv4 in 127/8, 10/8, 172.16/12, 192.168/16, 169.254/16,
0/8, literal `localhost`, bracketed IPv6 literals including
IPv4-mapped private addresses); it accepts a well-formed HTTPS URL with
complete credentials provided the hostname also does not merely start
with one of the private-looking prefixes (`PRIVATE_IP_PATTERNS` are
string patterns, so public DNS names such as `10.example.com` are also
rejected — see the counterexample). -/
theorem baseUrl_security_validation
    (parseUrl : String → Option UrlParts) (name : String) (ep : EndpointConfig)
    (url : UrlParts) (hbase : ep.baseUrl ≠ "")
    (hparse : parseUrl ep.baseUrl = some url) :
    (url.protocol ≠ "https:" →
      validateEndpoint parseUrl name ep =
        .error ("Endpoint \"" ++ name ++ "\": baseUrl must use HTTPS (got \""
          ++ url.protocol ++ "\")")) ∧
    (url.protocol = "https:" → specPrivateHost url.hostname = true →
      validateEndpoint parseUrl name ep =
        .error ("Endpoint \"" ++ name ++ "\": baseUrl must not point to a private/reserved address")) ∧
    (url.protocol = "https:" → privateHostMatch url.hostname = false →
      ((ep.type = "onesystems" ∧ ep.appKey ≠ "") ∨
       (ep.type = "gopro" ∧ ep.username ≠ "" ∧ ep.password ≠ "")) →
      validateEndpoint parseUrl name ep = .ok ()) := by
  have hb : (ep.baseUrl == "") = false := by simp [hbase]
  refine ⟨?_, ?_, ?_⟩
  · intro hp
    simp [validateEndpoint, endpointUrlCheck, hb, hparse, hp]
  · intro hp hpriv
    have hmatch := specPrivate_implies_pattern hpriv
    simp [validateEndpoint, endpointUrlCheck, hb, hparse, hp, hmatch]
  · intro hp hmatch hcred
    rcases hcred with ⟨ht, hk⟩ | ⟨ht, hu, hpw⟩
    · simp [validateEndpoint, endpointUrlCheck, hb, hparse, hp, hmatch, ht, hk]
    · simp [validateEndpoint, endpointUrlCheck, hb, hparse, hp, hmatch, ht, hu, hpw]

/-- Witness for C5: an HTTP URL and a loopback URL are rejected with
the respective errors; a public HTTPS URL is accepted. -/
theorem baseUrl_security_validation_witness :
    validateEndpoint demoParseUrl "onesystems"
        { type := "onesystems", baseUrl := "http://api.onesystems.test", appKey := "k" } =
      .error "Endpoint \"onesystems\": baseUrl must use HTTPS (got \"http:\")" ∧
    validateEndpoint demoParseUrl "onesystems"
        { type := "onesystems", baseUrl := "https://127.0.0.1/api", appKey := "k" } =
      .error "Endpoint \"onesystems\": baseUrl must not point to a private/reserved address" ∧
    validateEndpoint demoParseUrl "onesystems"
        { type := "onesystems", baseUrl := "https://api.onesystems.is", appKey := "k" } =
      .ok () :=
  ⟨(baseUrl_security_validation demoParseUrl "onesystems"
      { type := "onesystems", baseUrl := "http://api.onesystems.test", appKey := "k" }
      ⟨"http:", "api.onesystems.test"⟩ (by decide) (by decide)).1 (by decide),
   (baseUrl_security_validation demoParseUrl "onesystems"
      { type := "onesystems", baseUrl := "https://127.0.0.1/api", appKey := "k" }
      ⟨"https:", "127.0.0.1"⟩ (by decide) (by decide)).2.1 rfl (by decide),
   (baseUrl_security_validation demoParseUrl "onesystems"
      { type := "onesystems", baseUrl := "https://api.onesystems.is", appKey := "k" }
      ⟨"https:", "api.onesystems.is"⟩ (by decide) (by decide)).2.2 rfl (by decide)
      (Or.inl ⟨rfl, by decide⟩)⟩

theorem flushBlock_currentBlock (st : HtmlParseState) :
    (flushBlock st).currentBlock = none := by
  cases hcb : st.currentBlock <;> (simp [flushBlock, hcb]; try (split <;> rfl))

theorem flushBlock_listStack (st : HtmlParseState) :
    (flushBlock st).listStack = st.listStack := by
  cases hcb : st.currentBlock <;> (simp [flushBlock, hcb]; try (split <;> rfl))

theorem flushBlock_blockquoteDepth (st : HtmlParseState) :
    (flushBlock st).blockquoteDepth = st.blockquoteDepth := by
  cases hcb : st.currentBlock <;> (simp [flushBlock, hcb]; try (split <;> rfl))

theorem ensureBlock_of_none {st : HtmlParseState} (h : st.currentBlock = none) :
    ensureBlock st = { st with currentBlock := (some
      ⟨"paragraph", [], st.listStack.length * 15 + st.blockquoteDepth * 20⟩) } := by
  unfold ensureBlock
  rw [h]

/-- C6 counterexample: a list item opened inside a blockquote.  The list
depth is 1 and the blockquote depth is 1 when the block opens, so the
claimed formula demands indent `15 * 1 + 20 * 1 = 35`, but the parser
emits the block with indent `15`. -/
theorem list_item_in_blockquote_indent_counterexample :
    parseHtmlToBlocks "<blockquote><ul><li>A</li></ul></blockquote>" =
      [⟨"list-item", [⟨"• ", false, false⟩, ⟨"A", false, false⟩], 15⟩] ∧
    (15 : Nat) ≠ 15 * 1 + 20 * 1 := by
  decide

/-- C6 (amended): a block opened by `ensureBlock` (paragraphs, headings,
quoted text) has indent `15 × list-depth + 20 × blockquote-depth`; a
list-item block opened by an `<li>` tag instead has indent
`15 × list-depth`, ignoring the blockquote depth (the `<li>` handler
overwrites the indent with `listStack.length * 15`). -/
theorem block_indent_formula :
    (∀ st : HtmlParseState, st.currentBlock = none →
      (ensureBlock st).currentBlock = some
        ⟨"paragraph", [], st.listStack.length * 15 + st.blockquoteDepth * 20⟩) ∧
    (∀ (st : HtmlParseState) (rawTag : List Char),
      htmlTagName rawTag = "li" → htmlTagClosing rawTag = false →
      ∃ runs, (handleTag st rawTag).currentBlock = some
        ⟨"list-item", runs, st.listStack.length * 15⟩) := by
  constructor
  · intro st h
    rw [ensureBlock_of_none h]
  · intro st rawTag hname hclose
    unfold handleTag
    rw [hname, hclose]
    simp only [isHeadingTag]
    have hens := ensureBlock_of_none (flushBlock_currentBlock st)
    rw [flushBlock_listStack, flushBlock_blockquoteDepth] at hens
    simp only [hens, flushBlock_listStack]
    cases hls : st.listStack with
    | nil => exact ⟨[], by simp [hls]⟩
    | cons list rest =>
        refine ⟨[⟨if list.type == "ol" then toString (list.index + 1) ++ ". "
          else "• ", false, false⟩], ?_⟩
        simp [hls]

/-- Witness for C6 at a concrete state with one open list and one open
blockquote. -/
theorem block_indent_formula_witness :
    (ensureBlock ⟨[], none, false, false, [⟨"ul", 0⟩], 1, none⟩).currentBlock =
      some ⟨"paragraph", [], 35⟩ ∧
    ∃ runs, (handleTag ⟨[], none, false, false, [⟨"ul", 0⟩], 1, none⟩
        "li".data).currentBlock = some ⟨"list-item", runs, 15⟩ :=
  ⟨block_indent_formula.1 ⟨[], none, false, false, [⟨"ul", 0⟩], 1, none⟩ rfl,
   block_indent_formula.2 ⟨[], none, false, false, [⟨"ul", 0⟩], 1, none⟩
     "li".data (by decide) (by decide)⟩

def isOkE : Except String Unit → Bool
  | .ok _ => true
  | .error _ => false

def errOf : Except String Unit → String
  | .ok _ => ""
  | .error m => m

/-- Number of successful uploads among the indexed attachments. -/
def uploadForwardedCount (outcome : Nat → Except String Unit)
    (atts : List DownloadedAttachment) : Nat :=
  ((atts.enum.filter (fun p => isOkE (outcome p.1))).length)

/-- The `{ filename, error }` entries for the failed uploads, in order. -/
def uploadFailures (outcome : Nat → Except String Unit)
    (atts : List DownloadedAttachment) : List UploadError :=
  ((atts.enum.filter (fun p => !isOkE (outcome p.1))).map
    (fun p => (⟨p.2.filename, errOf (outcome p.1)⟩ : UploadError)))

/-- The upload loop computes the success count, the failure entries and
the calls made, as functions of the per-index outcomes. -/
theorem runUploads_spec (outcome : Nat → Except String Unit) (cn : String)
    (atts : List DownloadedAttachment) : ∀ i,
    runUploads outcome cn atts i =
      (((List.enumFrom i atts).filter (fun p => isOkE (outcome p.1))).length,
       ((List.enumFrom i atts).filter (fun p => !isOkE (outcome p.1))).map
         (fun p => (⟨p.2.filename, errOf (outcome p.1)⟩ : UploadError)),
       atts.map (fun a => (⟨cn, a.filename⟩ : UploadCall))) := by
  induction atts with
  | nil => intro i; rfl
  | cons att rest ih =>
      intro i
      simp only [runUploads, ih (i + 1), List.enumFrom]
      cases ho : outcome i with
      | ok u => cases u; simp [isOkE, ho]
      | error m => simp [isOkE, errOf, ho]

theorem length_filter_add_length_filter_not {α : Type} (l : List α) (p : α → Bool) :
    (l.filter p).length + (l.filter (fun x => !p x)).length = l.length := by
  induction l with
  | nil => rfl
  | cons a t ih => cases hp : p a <;> (simp [List.filter, hp]; omega)

/-- C7: when the attachments flow reaches the upload loop and at least
one upload succeeds while at least one fails, the handler still answers
200 with a structured body: `success = false`, `attachments_forwarded`
equal to the number of successful uploads, and one
`{ filename, error }` entry per failed item (successes plus failure
entries account for every attachment). -/
theorem mixed_outcome_upload_reporting
    (env : AttachmentsEnv) (headers : List (String × String))
    (body : AttachmentsReqBody) (cfg : TenantConfig) (docEndpoint : String)
    (tid : Int) (cn : String) (ep : EndpointConfig) (ticket : ZendeskTicket)
    (bid : Int) (comments : List ZendeskComment) (atts : List DownloadedAttachment)
    (hauth : verifyApiKey headers cfg = true)
    (htid : body.ticket_id = some tid) (hpos : 0 < tid)
    (hcn : body.case_number = some cn) (hcn' : cn ≠ "")
    (hep : resolveEndpoint cfg docEndpoint = .ok ep)
    (hticket : env.getTicket tid = .ok ticket)
    (hbrand : ticket.brand_id = some bid) (hbrand' : toString bid = cfg.brand_id)
    (hcomments : env.getTicketComments tid = .ok comments)
    (hatts : env.fetchAttachments comments = .ok atts)
    (hsucc : ∃ p ∈ atts.enum, isOkE (env.uploadResult p.1) = true)
    (hfail : ∃ p ∈ atts.enum, isOkE (env.uploadResult p.1) = false) :
    (handleAttachments env headers body cfg docEndpoint).1.status = 200 ∧
    (handleAttachments env headers body cfg docEndpoint).1.body.success = some false ∧
    (handleAttachments env headers body cfg docEndpoint).1.body.attachments_forwarded =
      some (uploadForwardedCount env.uploadResult atts) ∧
    (handleAttachments env headers body cfg docEndpoint).1.body.errors =
      some (uploadFailures env.uploadResult atts) ∧
    0 < uploadForwardedCount env.uploadResult atts ∧
    uploadFailures env.uploadResult atts ≠ [] ∧
    uploadForwardedCount env.uploadResult atts +
      (uploadFailures env.uploadResult atts).length = atts.length := by
  have hne : atts ≠ [] := by
    obtain ⟨p, hmem, -⟩ := hfail
    intro h
    subst h
    simp [List.enum] at hmem
  have hfails_ne : uploadFailures env.uploadResult atts ≠ [] := by
    obtain ⟨p, hmem, hp⟩ := hfail
    have hmemf : p ∈ atts.enum.filter (fun q => !isOkE (env.uploadResult q.1)) :=
      List.mem_filter.mpr ⟨hmem, by simp [hp]⟩
    exact List.ne_nil_of_mem (List.mem_map_of_mem _ hmemf)
  have hfwd_pos : 0 < uploadForwardedCount env.uploadResult atts := by
    obtain ⟨p, hmem, hp⟩ := hsucc
    have hmemf : p ∈ atts.enum.filter (fun q => isOkE (env.uploadResult q.1)) :=
      List.mem_filter.mpr ⟨hmem, by simp [hp]⟩
    exact List.length_pos.mpr (List.ne_nil_of_mem hmemf)
  have hcount : uploadForwardedCount env.uploadResult atts +
      (uploadFailures env.uploadResult atts).length = atts.length := by
    unfold uploadForwardedCount uploadFailures
    rw [List.length_map]
    rw [length_filter_add_length_filter_not]
    exact List.enum_length
  have hnotle : ¬ tid ≤ 0 := by omega
  have hru := runUploads_spec env.uploadResult cn atts 0
  have hcnb : (cn == "") = false := beq_eq_false_iff_ne.mpr hcn'
  have hie : atts.isEmpty = false := by
    cases atts with
    | nil => exact absurd rfl hne
    | cons a t => rfl
  have hsome : (handleAttachments env headers body cfg docEndpoint) =
      (hr 200 { success := some (uploadFailures env.uploadResult atts).isEmpty
                ticket_id := some tid
                brand_id := some cfg.brand_id
                case_number := some cn
                doc_endpoint := some docEndpoint
                doc_system := some ep.type
                attachments_total := some atts.length
                attachments_forwarded := some (uploadForwardedCount env.uploadResult atts)
                errors := (if (uploadFailures env.uploadResult atts).isEmpty then none
                  else some (uploadFailures env.uploadResult atts)) },
       atts.map (fun a => (⟨cn, a.filename⟩ : UploadCall))) := by
    unfold handleAttachments
    simp only [hauth, htid, hcn, hep, hticket, hbrand, hcomments, hatts,
      Bool.not_true, Bool.false_eq_true, if_false]
    rw [if_neg hnotle]
    simp only [hcnb, Bool.false_eq_true, if_false]
    rw [hbrand']
    simp only [bne_self_eq_false, Bool.false_eq_true, if_false]
    rw [hie]
    simp only [Bool.false_eq_true, if_false]
    rw [hru]
    simp only [uploadForwardedCount, uploadFailures, List.enum]
  rw [hsome]
  have hie2 : (uploadFailures env.uploadResult atts).isEmpty = false := by
    cases hfe : uploadFailures env.uploadResult atts with
    | nil => exact absurd hfe hfails_ne
    | cons a t => rfl
  dsimp only [hr]
  rw [hie2]
  refine ⟨rfl, rfl, rfl, by simp, hfwd_pos, hfails_ne, hcount⟩

/-- Environment reproducing the repository's partial-failure test: two
attachments, the first upload succeeds, the second fails with
`Server error`. -/
def envPartialFailure : AttachmentsEnv :=
  { getTicket := fun _ => .ok
      { id := 300, subject := "Files", status := "open", brand_id := some 360001234567 }
    getTicketComments := fun _ => .ok [{ id := 1, body := some "Files" }]
    fetchAttachments := fun _ => .ok
      [{ filename := "a.pdf", contentType := "application/pdf", size := 100 },
       { filename := "b.pdf", contentType := "application/pdf", size := 200 }]
    uploadResult := fun i => if i == 0 then .ok () else .error "Server error" }

/-- Witness for C7: two attachments, second upload fails — the response
reports `success := false`, `forwarded := 1`, one error naming the
second file. -/
theorem mixed_outcome_upload_reporting_witness :
    (handleAttachments envPartialFailure [("x-api-key", "test-malaskra-key")]
        { ticket_id := some 300, case_number := some "C-300" }
        testTenant "onesystems").1.body.success = some false ∧
    (handleAttachments envPartialFailure [("x-api-key", "test-malaskra-key")]
        { ticket_id := some 300, case_number := some "C-300" }
        testTenant "onesystems").1.body.attachments_forwarded = some 1 ∧
    (handleAttachments envPartialFailure [("x-api-key", "test-malaskra-key")]
        { ticket_id := some 300, case_number := some "C-300" }
        testTenant "onesystems").1.body.errors = some [⟨"b.pdf", "Server error"⟩] :=
  let h := mixed_outcome_upload_reporting envPartialFailure
    [("x-api-key", "test-malaskra-key")]
    { ticket_id := some 300, case_number := some "C-300" }
    testTenant "onesystems" 300 "C-300"
    { type := "onesystems", baseUrl := "https://api.onesystems.test", appKey := "test-key" }
    { id := 300, subject := "Files", status := "open", brand_id := some 360001234567 }
    360001234567 [{ id := 1, body := some "Files" }]
    [{ filename := "a.pdf", contentType := "application/pdf", size := 100 },
     { filename := "b.pdf", contentType := "application/pdf", size := 200 }]
    (by decide) rfl (by decide) rfl (by decide) (by decide) rfl rfl (by decide)
    rfl rfl (by decide) (by decide)
  ⟨h.2.1, h.2.2.1, h.2.2.2.1⟩

/-- C8: the case number uploaded to the archive and reported in the
webhook response is `selectCaseNumber`, which uses the declared custom
field's value (as a string) when the field id is declared and the field
is present with a truthy (non-empty) value, and the synthesized
`"ZD-" + ticketId` fallback in every other case. -/
theorem case_number_selection
    (env : WebhookEnv) (rawBody : String) (headers : List (String × String))
    (body : WebhookReqBody) (cfg : TenantConfig) (docEndpoint : String)
    (tid : Int) (ep : EndpointConfig) (ticket : ZendeskTicket) (tb : Int)
    (comments : List ZendeskComment) (atts : List DownloadedAttachment)
    (hsig : verifyWebhookSignature env.hmac rawBody
      (headerGet headers "x-zendesk-webhook-signature-timestamp")
      (headerGet headers "x-zendesk-webhook-signature")
      cfg.zendesk.webhookSecret = true)
    (hfresh : isTimestampFresh env.parseDate env.now
      (headerGet headers "x-zendesk-webhook-signature-timestamp")
      WEBHOOK_TIMESTAMP_TOLERANCE_MS = true)
    (htid : body.ticket_id = some tid) (hpos : 0 < tid)
    (hep : resolveEndpoint cfg docEndpoint = .ok ep)
    (hticket : env.getTicket tid = .ok ticket)
    (hbrand : ticket.brand_id = some tb) (hbrand' : toString tb = cfg.brand_id)
    (hcomments : env.getTicketComments tid = .ok comments)
    (hatts : env.fetchAttachments comments = .ok atts)
    (hupload : env.uploadResult = .ok ()) :
    (handleWebhook env rawBody headers body cfg docEndpoint).1.status = 200 ∧
    (handleWebhook env rawBody headers body cfg docEndpoint).1.body.case_number =
      some (selectCaseNumber ep ticket tid) ∧
    (handleWebhook env rawBody headers body cfg docEndpoint).2 =
      [⟨selectCaseNumber ep ticket tid, "ticket-" ++ toString tid ++ ".pdf"⟩] ∧
    (∀ fields f, caseFieldDeclared ep.caseNumberFieldId = true →
      ticket.custom_fields = some fields →
      fields.find? (fun g => some g.id == ep.caseNumberFieldId) = some f →
      f.value.truthy = true →
      selectCaseNumber ep ticket tid = f.value.toJsString) ∧
    (caseFieldDeclared ep.caseNumberFieldId = false →
      selectCaseNumber ep ticket tid = "ZD-" ++ toString tid) ∧
    (ticket.custom_fields = none →
      selectCaseNumber ep ticket tid = "ZD-" ++ toString tid) ∧
    (∀ fields, ticket.custom_fields = some fields →
      fields.find? (fun g => some g.id == ep.caseNumberFieldId) = none →
      selectCaseNumber ep ticket tid = "ZD-" ++ toString tid) ∧
    (∀ fields f, ticket.custom_fields = some fields →
      fields.find? (fun g => some g.id == ep.caseNumberFieldId) = some f →
      f.value.truthy = false →
      selectCaseNumber ep ticket tid = "ZD-" ++ toString tid) := by
  have hnotle : ¬ tid ≤ 0 := by omega
  have hhandler : (handleWebhook env rawBody headers body cfg docEndpoint) =
      (hr 200 { success := some true
                ticket_id := some tid
                brand_id := some cfg.brand_id
                case_number := some (selectCaseNumber ep ticket tid)
                doc_endpoint := some docEndpoint
                doc_system := some ep.type },
       [⟨selectCaseNumber ep ticket tid, "ticket-" ++ toString tid ++ ".pdf"⟩]) := by
    unfold handleWebhook
    simp only [hsig, hfresh, htid, hep, hticket, hbrand, hcomments, hatts, hupload,
      Bool.not_true, Bool.false_eq_true, if_false]
    rw [if_neg hnotle]
    rw [hbrand']
    simp only [bne_self_eq_false, Bool.false_eq_true, if_false]
  refine ⟨by rw [hhandler]; try rfl, by rw [hhandler]; try rfl,
    by rw [hhandler]; try rfl, ?_, ?_, ?_, ?_, ?_⟩
  · intro fields f hdecl hfields hfind htruthy
    simp [selectCaseNumber, hdecl, hfields, hfind, htruthy]
  · intro hdecl
    simp [selectCaseNumber, hdecl]
  · intro hfields
    cases hdecl : caseFieldDeclared ep.caseNumberFieldId <;>
      simp [selectCaseNumber, hdecl, hfields]
  · intro fields hfields hfind
    cases hdecl : caseFieldDeclared ep.caseNumberFieldId <;>
      simp [selectCaseNumber, hdecl, hfields, hfind]
  · intro fields f hfields hfind htruthy
    cases hdecl : caseFieldDeclared ep.caseNumberFieldId <;>
      simp [selectCaseNumber, hdecl, hfields, hfind, htruthy]

/-- Endpoint config that declares a case-number custom field. -/
def epCaseField : EndpointConfig :=
  { type := "onesystems", baseUrl := "https://api.onesystems.test"
    appKey := "test-key", caseNumberFieldId := some 37 }

def testTenantCaseField : TenantConfig :=
  { testTenant with endpoints := [("onesystems", epCaseField)] }

/-- Ticket carrying the declared custom field with value `CASE-77`. -/
def ticketWithField : ZendeskTicket :=
  { id := 123, subject := "Test", status := "solved"
    custom_fields := some [⟨37, .jstr "CASE-77"⟩]
    brand_id := some 360001234567 }

/-- Webhook environment whose gates all pass and whose ticket is
`ticketWithField`. -/
def envWebhookDemo : WebhookEnv :=
  { hmac := fun _ _ => "SIG"
    parseDate := fun _ => some 0
    now := 0
    getTicket := fun _ => .ok ticketWithField
    getTicketComments := fun _ => .ok []
    fetchAttachments := fun _ => .ok []
    renderPdf := fun _ _ => 1000
    uploadResult := .ok () }

def demoWebhookHeaders : List (String × String) :=
  [("x-zendesk-webhook-signature", "SIG"),
   ("x-zendesk-webhook-signature-timestamp", "2026-10-11T12:00:00Z")]

/-- Witness for C8: the declared field is present with value `CASE-77`,
and that value is uploaded and reported. -/
theorem case_number_selection_witness :
    (handleWebhook envWebhookDemo "rawbody" demoWebhookHeaders { ticket_id := some 123 }
        testTenantCaseField "onesystems").1.body.case_number = some "CASE-77" ∧
    (handleWebhook envWebhookDemo "rawbody" demoWebhookHeaders { ticket_id := some 123 }
        testTenantCaseField "onesystems").2 = [⟨"CASE-77", "ticket-123.pdf"⟩] :=
  let h := case_number_selection envWebhookDemo "rawbody" demoWebhookHeaders
    { ticket_id := some 123 } testTenantCaseField "onesystems" 123 epCaseField
    ticketWithField 360001234567 [] []
    (by decide) (by decide) rfl (by decide) (by decide) rfl rfl (by decide)
    rfl rfl rfl
  ⟨h.2.1, h.2.2.1⟩

/-- C9: `parseHtmlToBlocks` produces two paragraph blocks with
single runs "First"/"Second" for two paragraphs; two list-item blocks
whose first run is the literal bullet-plus-space for `<ul>`; and
`"1. "`, `"2. "` ordinal first runs for `<ol>` from the innermost open
list's running counter. -/
theorem parse_block_structure :
    parseHtmlToBlocks "<p>First</p><p>Second</p>" =
      [⟨"paragraph", [⟨"First", false, false⟩], 0⟩,
       ⟨"paragraph", [⟨"Second", false, false⟩], 0⟩] ∧
    parseHtmlToBlocks "<ul><li>A</li><li>B</li></ul>" =
      [⟨"list-item", [⟨"• ", false, false⟩, ⟨"A", false, false⟩], 15⟩,
       ⟨"list-item", [⟨"• ", false, false⟩, ⟨"B", false, false⟩], 15⟩] ∧
    parseHtmlToBlocks "<ol><li>A</li><li>B</li></ol>" =
      [⟨"list-item", [⟨"1. ", false, false⟩, ⟨"A", false, false⟩], 15⟩,
       ⟨"list-item", [⟨"2. ", false, false⟩, ⟨"B", false, false⟩], 15⟩] := by
  decide

/-- C10: a comment whose `public` field is absent is treated as public:
it is rendered even with `includeInternalNotes = false`, it is not
marked internal, and it gets no internal-note header suffix; only
`public === false` comments are filtered or marked. -/
theorem absent_public_treated_as_public (comments : List ZendeskComment)
    (c : ZendeskComment) (hc : c.public = none) :
    (c ∈ filteredComments false comments ↔ c ∈ comments) ∧
    (c ∈ filteredComments true comments ↔ c ∈ comments) ∧
    commentIsInternal c = false ∧
    commentHeaderSuffix c = "" := by
  refine ⟨?_, ?_, ?_, ?_⟩
  · simp [filteredComments, List.mem_filter, hc]
  · simp [filteredComments]
  · simp [commentIsInternal, hc]
  · simp [commentHeaderSuffix, commentIsInternal, hc]

/-- Witness for C10 at a concrete comment without a `public` field. -/
theorem absent_public_treated_as_public_witness :
    (({ id := 1 } : ZendeskComment) ∈
        filteredComments false [({ id := 1 } : ZendeskComment)] ↔
      ({ id := 1 } : ZendeskComment) ∈ [({ id := 1 } : ZendeskComment)]) ∧
    (({ id := 1 } : ZendeskComment) ∈
        filteredComments true [({ id := 1 } : ZendeskComment)] ↔
      ({ id := 1 } : ZendeskComment) ∈ [({ id := 1 } : ZendeskComment)]) ∧
    commentIsInternal { id := 1 } = false ∧
    commentHeaderSuffix { id := 1 } = "" :=
  absent_public_treated_as_public [{ id := 1 }] { id := 1 } rfl

end MilliMala
